import Mathlib

/-!
Shallow embedding of `src/server.js`, an Express HTTP relay that forwards a
prompt and chat history to the Google Generative AI client and maps the
outcome to an HTTP response.

JavaScript values reaching the handler through `req.body` are modelled by
`JsValue`; an absent object field reads as `vUndefined`, matching property
access on a parsed JSON body.  The provider (`getGenerativeModel` /
`startChat` / `sendMessage` taken together) is an oracle from the call data
to either the reply text or an error description; `run` and the route
handler are instrumented to also return the list of provider calls made and
the lines written with `console.error`, which are the program's observable
effects.
-/

/-- A JavaScript value as it can appear in a parsed JSON request body
(plus `undefined` for an absent field). -/
inductive JsValue where
  | vUndefined : JsValue
  | vNull : JsValue
  | vBool : Bool → JsValue
  | vNum : Int → JsValue
  | vStr : String → JsValue
  | vArr : List JsValue → JsValue
  | vObj : List (String × JsValue) → JsValue

/-- JavaScript truthiness, as tested by `if (!prompt)` and `history || []`:
`undefined`, `null`, `false`, `0` and `""` are falsy; every array and
object is truthy. -/
def truthy : JsValue → Bool
  | .vUndefined => false
  | .vNull => false
  | .vBool b => b
  | .vNum n => n != 0
  | .vStr s => s != ""
  | .vArr _ => true
  | .vObj _ => true

/-- Whether a value is a JavaScript string. -/
def isString : JsValue → Bool
  | .vStr _ => true
  | _ => false

/-- Whether a value is a JavaScript array. -/
def isArray : JsValue → Bool
  | .vArr _ => true
  | _ => false

/-- The body of a POST request as the handler reads it: the two accessed
fields `req.body.prompt` and `req.body.history` (absent field = `vUndefined`). -/
structure RequestBody where
  prompt : JsValue
  history : JsValue

/-- `const generationConfig = { temperature: 0, topP: 0.95, topK: 64,
responseMimeType: "text/plain" }` (src/server.js lines 40-45). -/
structure GenerationConfig where
  temperature : ℚ
  topP : ℚ
  topK : ℕ
  responseMimeType : String
deriving DecidableEq

def generationConfig : GenerationConfig :=
  { temperature := 0, topP := 0.95, topK := 64, responseMimeType := "text/plain" }

/-- `model: "gemini-1.5-flash"` (src/server.js line 56). -/
def modelName : String := "gemini-1.5-flash"

/-- The fixed system instruction (src/server.js line 57). -/
def systemInstruction : String :=
  "Make every response very short,maximum 150 characters length"

/-- Everything the program hands to the provider for one chat exchange:
the model identity and system instruction given to `getGenerativeModel`,
the generation config and history given to `startChat`, and the prompt
given to `sendMessage`. -/
structure ProviderCall where
  model : String
  systemInstruction : String
  config : GenerationConfig
  history : JsValue
  prompt : JsValue

/-- The provider as an oracle: one chat exchange either yields the reply
text or fails with an error description (network error, provider error,
malformed response, timeout — all collapsed into the error string). -/
def Provider : Type := ProviderCall → Except String String

/-- The value `run` resolves with: `{ Response: true, text: ... }` on
success, `{ Response: false }` (no `text` field) on failure. -/
structure RunResult where
  Response : Bool
  text : Option String
deriving DecidableEq

/-- The single provider call `run` performs for a given prompt and history. -/
def theCall (prompt history : JsValue) : ProviderCall :=
  { model := modelName
  , systemInstruction := systemInstruction
  , config := generationConfig
  , history := history
  , prompt := prompt }

/-- `async function run(prompt, history)` (src/server.js lines 53-73):
builds the model, starts a chat session with `generationConfig` and the
given history, sends the prompt, and returns `{Response: true, text}` on
success; any error thrown inside the `try` is caught, logged with
`console.error`, and turned into `{Response: false}`.  Besides the result
we return the provider calls made and the error-log lines written. -/
def run (provider : Provider) (prompt history : JsValue) :
    RunResult × List ProviderCall × List String :=
  let call := theCall prompt history
  match provider call with
  | .ok t => ({ Response := true, text := some t }, [call], [])
  | .error e =>
      ({ Response := false, text := none }, [call],
        ["Error during AI model interaction: " ++ e])

/-- An HTTP response as produced by `res.status(s).send(body)`. -/
structure HttpResponse where
  status : ℕ
  body : String
deriving DecidableEq

/-- `req.body.history || []`: the history passed to `run`, defaulting any
falsy value to the empty array. -/
def defaultedHistory (h : JsValue) : JsValue :=
  if truthy h then h else .vArr []

/-- The provider call a request with a valid prompt gives rise to. -/
def mkCall (req : RequestBody) : ProviderCall :=
  theCall req.prompt (defaultedHistory req.history)

/-- The POST "/" route handler (src/server.js lines 76-94): reads
`prompt` and `history` from the body, answers 400 "Prompt is required."
when `!prompt`, otherwise awaits `run` and answers 200 with the reply
text or 500 with the fixed error message.  Returns the response together
with the provider calls made and the error-log lines written. -/
def handleChatRequest (provider : Provider) (req : RequestBody) :
    HttpResponse × List ProviderCall × List String :=
  let prompt := req.prompt
  let history := defaultedHistory req.history
  if truthy prompt = false then
    ({ status := 400, body := "Prompt is required." }, [], [])
  else
    let r := run provider prompt history
    if r.1.Response = true then
      ({ status := 200, body := r.1.text.getD "" }, r.2.1, r.2.2)
    else
      ({ status := 500, body := "Error processing request. Check server logs for details." },
        r.2.1, r.2.2)

/-- The server handles each request independently: no mutable state in the
module outlives a request (src/server.js declares only constants), so a
sequence of requests is processed by mapping the handler over it. -/
def processRequests (provider : Provider) (reqs : List RequestBody) :
    List (HttpResponse × List ProviderCall × List String) :=
  reqs.map (handleChatRequest provider)

/-- `const PORT = 8080` (src/server.js line 12). -/
def PORT : ℕ := 8080

/-- Outcome of process startup: whether the process exited early (and with
which code), whether it bound a listen port, and what it logged. -/
structure StartupOutcome where
  exitCode : Option ℕ
  listeningPort : Option ℕ
  log : List String
  errLog : List String
deriving DecidableEq

/-- Truthiness of `process.env.AI_KEY`, a `string | undefined`:
falsy exactly when unset or the empty string. -/
def envTruthy : Option String → Bool
  | none => false
  | some s => s != ""

/-- Process startup (src/server.js lines 28-35 and 97-99): if `!apiKey`
the process logs two diagnostics with `console.error` and calls
`process.exit(1)` before any `app.listen`; otherwise it reaches
`app.listen(PORT, ...)` and logs the listening message. -/
def startup (aiKey : Option String) : StartupOutcome :=
  if envTruthy aiKey = false then
    { exitCode := some 1
    , listeningPort := none
    , log := []
    , errLog :=
        [ "Error: AI_KEY environment variable is not set."
        , "Please set the AI_KEY environment variable with your Google AI API key." ] }
  else
    { exitCode := none
    , listeningPort := some PORT
    , log := ["Server is running on http://localhost:8080"]
    , errLog := [] }

/-- A provider stub that always succeeds with a fixed reply. -/
def okProvider : Provider := fun _ => .ok "Hi there!"

/-- A provider stub that always fails with a fixed error description. -/
def errProvider : Provider := fun _ => .error "boom"

example :
    (handleChatRequest okProvider ⟨.vStr "Hello", .vArr []⟩).1 =
      ⟨200, "Hi there!"⟩ := rfl

example :
    (handleChatRequest okProvider ⟨.vUndefined, .vArr []⟩).1 =
      ⟨400, "Prompt is required."⟩ := rfl

example :
    (handleChatRequest errProvider ⟨.vStr "Hi", .vUndefined⟩).1 =
      ⟨500, "Error processing request. Check server logs for details."⟩ := rfl

/-- Helper: a request with a truthy prompt performs exactly the one
provider call `mkCall req`, whatever the provider answers. -/
theorem handle_valid_calls (provider : Provider) (req : RequestBody)
    (hp : truthy req.prompt = true) :
    (handleChatRequest provider req).2.1 = [mkCall req] := by
  cases h : provider (theCall req.prompt (defaultedHistory req.history)) with
  | ok t => simp [handleChatRequest, run, mkCall, hp, h]
  | error e => simp [handleChatRequest, run, mkCall, hp, h]

/-- C1 counterexample: the body `{"prompt": 1}` has a non-string prompt,
yet the handler answers 200 (with the stub provider) and makes one
provider call, instead of answering 400 with no call. -/
theorem C1_claim_counterexample :
    isString (RequestBody.mk (.vNum 1) .vUndefined).prompt = false ∧
    (handleChatRequest okProvider (RequestBody.mk (.vNum 1) .vUndefined)).1 =
      ⟨200, "Hi there!"⟩ ∧
    (handleChatRequest okProvider (RequestBody.mk (.vNum 1) .vUndefined)).2.1.length = 1 :=
  ⟨rfl, rfl, rfl⟩

/-- C1 (amended): whenever the prompt field is falsy (absent, `null`,
`false`, `0`, or the empty string), the handler returns HTTP 400 with
body exactly "Prompt is required.", makes no provider call and logs
nothing; truthy non-string prompts are not rejected. -/
theorem C1_falsy_prompt_rejected (provider : Provider) (req : RequestBody)
    (h : truthy req.prompt = false) :
    handleChatRequest provider req =
      (⟨400, "Prompt is required."⟩, [], []) := by
  simp [handleChatRequest, h]

/-- Witness for C1 (amended) at the concrete body `{"prompt": ""}`. -/
theorem C1_falsy_prompt_rejected_witness :
    truthy (RequestBody.mk (.vStr "") (.vArr [])).prompt = false ∧
    handleChatRequest okProvider (RequestBody.mk (.vStr "") (.vArr [])) =
      (⟨400, "Prompt is required."⟩, [], []) :=
  ⟨rfl, C1_falsy_prompt_rejected okProvider (RequestBody.mk (.vStr "") (.vArr [])) rfl⟩

/-- C2: when the prompt is accepted and the provider call succeeds with
text `t`, the handler answers HTTP 200 with body exactly `t` — no
transformation, truncation or wrapping. -/
theorem C2_success_verbatim (provider : Provider) (req : RequestBody) (t : String)
    (hp : truthy req.prompt = true)
    (hcall : provider (mkCall req) = .ok t) :
    (handleChatRequest provider req).1 = ⟨200, t⟩ := by
  have hcall2 : provider (theCall req.prompt (defaultedHistory req.history)) = .ok t := hcall
  simp [handleChatRequest, run, hp, hcall2]

/-- Witness for C2 at `{"prompt": "Hello", "history": []}` with a stub
provider returning "Hi there!". -/
theorem C2_success_verbatim_witness :
    truthy (RequestBody.mk (.vStr "Hello") (.vArr [])).prompt = true ∧
    okProvider (mkCall (RequestBody.mk (.vStr "Hello") (.vArr []))) = .ok "Hi there!" ∧
    (handleChatRequest okProvider (RequestBody.mk (.vStr "Hello") (.vArr []))).1 =
      ⟨200, "Hi there!"⟩ :=
  ⟨rfl, rfl,
    C2_success_verbatim okProvider (RequestBody.mk (.vStr "Hello") (.vArr []))
      "Hi there!" rfl rfl⟩

/-- C3: when the prompt is accepted and the provider call fails with any
error description `e`, the handler answers HTTP 500 with the fixed body
"Error processing request. Check server logs for details." — a constant
not mentioning `e` — and `e` appears only in the error log. -/
theorem C3_failure_uniform (provider : Provider) (req : RequestBody) (e : String)
    (hp : truthy req.prompt = true)
    (hcall : provider (mkCall req) = .error e) :
    (handleChatRequest provider req).1 =
      ⟨500, "Error processing request. Check server logs for details."⟩ ∧
    (handleChatRequest provider req).2.2 =
      ["Error during AI model interaction: " ++ e] := by
  have hcall2 : provider (theCall req.prompt (defaultedHistory req.history)) = .error e := hcall
  constructor <;> simp [handleChatRequest, run, hp, hcall2]

/-- Witness for C3 at `{"prompt": "Hi"}` with a stub provider failing
with "boom". -/
theorem C3_failure_uniform_witness :
    truthy (RequestBody.mk (.vStr "Hi") .vUndefined).prompt = true ∧
    errProvider (mkCall (RequestBody.mk (.vStr "Hi") .vUndefined)) = .error "boom" ∧
    (handleChatRequest errProvider (RequestBody.mk (.vStr "Hi") .vUndefined)).1 =
      ⟨500, "Error processing request. Check server logs for details."⟩ ∧
    (handleChatRequest errProvider (RequestBody.mk (.vStr "Hi") .vUndefined)).2.2 =
      ["Error during AI model interaction: " ++ "boom"] := by
  refine ⟨rfl, rfl, ?_⟩
  exact C3_failure_uniform errProvider (RequestBody.mk (.vStr "Hi") .vUndefined) "boom" rfl rfl

/-- C4 counterexample: the body `{"prompt": "hi", "history": "bogus"}`
has a non-array history, yet the provider is called with history
`"bogus"` (passed through unchanged), not with the empty array. -/
theorem C4_claim_counterexample :
    isArray (RequestBody.mk (.vStr "hi") (.vStr "bogus")).history = false ∧
    (handleChatRequest okProvider (RequestBody.mk (.vStr "hi") (.vStr "bogus"))).2.1 =
      [theCall (.vStr "hi") (.vStr "bogus")] ∧
    JsValue.vStr "bogus" ≠ JsValue.vArr [] :=
  ⟨rfl, rfl, fun h => JsValue.noConfusion h⟩

/-- C4 (amended): whenever the history field is falsy (absent, `null`,
`false`, `0`, or the empty string), the request behaves exactly as if the
history were the empty array — the full observable outcome (response,
provider calls, log) is the same; truthy non-array history values are
passed through to the provider unchanged. -/
theorem C4_falsy_history_empty (provider : Provider) (req : RequestBody)
    (h : truthy req.history = false) :
    handleChatRequest provider req =
      handleChatRequest provider ⟨req.prompt, .vArr []⟩ := by
  have hd : defaultedHistory req.history = .vArr [] := by
    simp [defaultedHistory, h]
  have hd2 : defaultedHistory (JsValue.vArr []) = .vArr [] := rfl
  simp [handleChatRequest, hd, hd2]

/-- Witness for C4 (amended) at `{"prompt": "Hello", "history": null}`. -/
theorem C4_falsy_history_empty_witness :
    truthy (RequestBody.mk (.vStr "Hello") .vNull).history = false ∧
    handleChatRequest okProvider (RequestBody.mk (.vStr "Hello") .vNull) =
      handleChatRequest okProvider ⟨.vStr "Hello", .vArr []⟩ :=
  ⟨rfl, C4_falsy_history_empty okProvider (RequestBody.mk (.vStr "Hello") .vNull) rfl⟩

/-- C5 counterexample: with `AI_KEY` present but equal to the empty
string, the process exits with status 1 and binds no port, contradicting
"if the credential is present the process binds the configured port". -/
theorem C5_claim_counterexample :
    (some "" : Option String) ≠ none ∧
    (startup (some "")).exitCode = some 1 ∧
    (startup (some "")).listeningPort = none :=
  ⟨fun h => Option.noConfusion h, rfl, rfl⟩

/-- C5 (amended): if `AI_KEY` is unset or set to the empty string, the
process emits the two diagnostics and exits with status 1 without ever
listening; if it is set to any non-empty value, the process binds port
8080 and exits nowhere. -/
theorem C5_startup_characterization (k : Option String) :
    startup k =
      if k = none ∨ k = some "" then
        ⟨some 1, none, [],
          [ "Error: AI_KEY environment variable is not set."
          , "Please set the AI_KEY environment variable with your Google AI API key." ]⟩
      else ⟨none, some PORT, ["Server is running on http://localhost:8080"], []⟩ := by
  cases k with
  | none => rfl
  | some s =>
      by_cases hs : s = ""
      · subst hs; rfl
      · simp [startup, envTruthy, hs]

/-- C6: a request with an accepted prompt triggers exactly one provider
invocation (no retry), and `run` never escapes with an exception: it
always resolves, to a success value carrying text or to the failure
value `{Response: false}`. -/
theorem C6_single_call_total (provider : Provider) (req : RequestBody)
    (hp : truthy req.prompt = true) :
    (handleChatRequest provider req).2.1 = [mkCall req] ∧
    ((∃ t, (run provider req.prompt (defaultedHistory req.history)).1 =
        ⟨true, some t⟩) ∨
      (run provider req.prompt (defaultedHistory req.history)).1 = ⟨false, none⟩) := by
  refine ⟨handle_valid_calls provider req hp, ?_⟩
  cases h : provider (theCall req.prompt (defaultedHistory req.history)) with
  | ok t => exact .inl ⟨t, by simp [run, h]⟩
  | error e => exact .inr (by simp [run, h])

/-- Witness for C6 at `{"prompt": "Hi"}` with the succeeding stub. -/
theorem C6_single_call_total_witness :
    truthy (RequestBody.mk (.vStr "Hi") .vUndefined).prompt = true ∧
    ((handleChatRequest okProvider (RequestBody.mk (.vStr "Hi") .vUndefined)).2.1 =
      [mkCall (RequestBody.mk (.vStr "Hi") .vUndefined)] ∧
    ((∃ t, (run okProvider (RequestBody.mk (.vStr "Hi") .vUndefined).prompt
        (defaultedHistory (RequestBody.mk (.vStr "Hi") .vUndefined).history)).1 =
        ⟨true, some t⟩) ∨
      (run okProvider (RequestBody.mk (.vStr "Hi") .vUndefined).prompt
        (defaultedHistory (RequestBody.mk (.vStr "Hi") .vUndefined).history)).1 =
        ⟨false, none⟩)) :=
  ⟨rfl, C6_single_call_total okProvider (RequestBody.mk (.vStr "Hi") .vUndefined) rfl⟩

/-- C7: the generation configuration and the model identity with its
system instruction are the fixed constants of the source, and every
provider call of every request carries exactly these constants. -/
theorem C7_fixed_config (provider : Provider) (req : RequestBody) :
    generationConfig =
      { temperature := 0, topP := 0.95, topK := 64, responseMimeType := "text/plain" } ∧
    modelName = "gemini-1.5-flash" ∧
    systemInstruction = "Make every response very short,maximum 150 characters length" ∧
    ∀ c ∈ (handleChatRequest provider req).2.1,
      c.config = generationConfig ∧ c.model = modelName ∧
      c.systemInstruction = systemInstruction := by
  refine ⟨rfl, rfl, rfl, ?_⟩
  intro c hc
  by_cases hp : truthy req.prompt = false
  · simp [handleChatRequest, hp] at hc
  · rw [handle_valid_calls provider req (by simpa using hp)] at hc
    rw [List.mem_singleton] at hc
    subst hc
    exact ⟨rfl, rfl, rfl⟩

/-- Witness for C7: the call made by `{"prompt": "Hello", "history": []}`
carries the constant configuration and identity. -/
theorem C7_fixed_config_witness :
    (mkCall (RequestBody.mk (.vStr "Hello") (.vArr []))).config = generationConfig ∧
    (mkCall (RequestBody.mk (.vStr "Hello") (.vArr []))).model = modelName ∧
    (mkCall (RequestBody.mk (.vStr "Hello") (.vArr []))).systemInstruction =
      systemInstruction :=
  (C7_fixed_config okProvider (RequestBody.mk (.vStr "Hello") (.vArr []))).2.2.2
    (mkCall (RequestBody.mk (.vStr "Hello") (.vArr [])))
    (by rw [handle_valid_calls okProvider (RequestBody.mk (.vStr "Hello") (.vArr [])) rfl]
        exact List.mem_singleton.mpr rfl)

/-- C8: the relay is stateless — a batch of two identical requests is
just the pure handler applied twice, each occurrence makes its own
provider call, both calls carry only the caller-supplied (defaulted)
history, and under a fixed provider both runs produce the same outcome. -/
theorem C8_stateless_repeat (provider : Provider) (req : RequestBody)
    (hp : truthy req.prompt = true) :
    processRequests provider [req, req] =
      [handleChatRequest provider req, handleChatRequest provider req] ∧
    (processRequests provider [req, req]).map (fun r => r.2.1) =
      [[mkCall req], [mkCall req]] ∧
    (mkCall req).history = defaultedHistory req.history := by
  refine ⟨rfl, ?_, rfl⟩
  simp [processRequests, handle_valid_calls provider req hp]

/-- Witness for C8 at `{"prompt": "Hello", "history": []}`. -/
theorem C8_stateless_repeat_witness :
    truthy (RequestBody.mk (.vStr "Hello") (.vArr [])).prompt = true ∧
    (processRequests okProvider
        [RequestBody.mk (.vStr "Hello") (.vArr []),
          RequestBody.mk (.vStr "Hello") (.vArr [])] =
      [handleChatRequest okProvider (RequestBody.mk (.vStr "Hello") (.vArr [])),
        handleChatRequest okProvider (RequestBody.mk (.vStr "Hello") (.vArr []))] ∧
    (processRequests okProvider
        [RequestBody.mk (.vStr "Hello") (.vArr []),
          RequestBody.mk (.vStr "Hello") (.vArr [])]).map (fun r => r.2.1) =
      [[mkCall (RequestBody.mk (.vStr "Hello") (.vArr []))],
        [mkCall (RequestBody.mk (.vStr "Hello") (.vArr []))]] ∧
    (mkCall (RequestBody.mk (.vStr "Hello") (.vArr []))).history =
      defaultedHistory (RequestBody.mk (.vStr "Hello") (.vArr [])).history) :=
  ⟨rfl, C8_stateless_repeat okProvider (RequestBody.mk (.vStr "Hello") (.vArr [])) rfl⟩

/-- C9: every request is answered, and with an HTTP status that is
exactly one of 400, 200 or 500 — the handler's response mapping is
total over validation failure, provider success and provider failure. -/
theorem C9_status_total (provider : Provider) (req : RequestBody) :
    (handleChatRequest provider req).1.status = 400 ∨
    (handleChatRequest provider req).1.status = 200 ∨
    (handleChatRequest provider req).1.status = 500 := by
  by_cases hp : truthy req.prompt = false
  · exact .inl (by simp [handleChatRequest, hp])
  · cases h : provider (theCall req.prompt (defaultedHistory req.history)) with
    | ok t => exact .inr (.inl (by simp [handleChatRequest, run, hp, h]))
    | error e => exact .inr (.inr (by simp [handleChatRequest, run, hp, h]))

/-- C10: the result of `run` carries a text exactly when its `Response`
flag is true, and on any provider failure the result is exactly
`{Response: false}` with no text. -/
theorem C10_text_iff_success (provider : Provider) (prompt history : JsValue) :
    ((run provider prompt history).1.Response = true ↔
      ((run provider prompt history).1.text).isSome = true) ∧
    (∀ e, provider (theCall prompt history) = .error e →
      (run provider prompt history).1 = ⟨false, none⟩) := by
  cases h : provider (theCall prompt history) with
  | ok t =>
      refine ⟨by simp [run, h], fun e he => ?_⟩
      exact Except.noConfusion he
  | error e =>
      exact ⟨by simp [run, h], fun e2 he2 => by simp [run, h]⟩

/-- Witness for C10 with the failing stub provider. -/
theorem C10_text_iff_success_witness :
    (run errProvider (.vStr "Hi") (.vArr [])).1 = ⟨false, none⟩ :=
  (C10_text_iff_success errProvider (.vStr "Hi") (.vArr [])).2 "boom" rfl
